import Mathlib

/-!
Verification of the UserErrors fatal-error reporting facility of CARLsim3
(src/carlsim/interface/include/user_errors.h).

The header declares a static class with one public entry point,
`assertTrue(statement, errorIfAssertionFails, errorFunc, errorMsgPrefix="", errorMsgSuffix="")`,
and one private routine `throwError(errorFunc, error, errorMsgPrefix, errorMsgSuffix)` which
"generates a standard error message for a certain error type, displays the message, and aborts
the process".  The enumeration `errorType` (39 enumerators) is transcribed verbatim from the
header.  The bodies of `assertTrue` and `throwError` live in a translation unit that is not part
of the provided sources, so their behaviour and the per-kind message templates are modelled from
the specification (see the doc comments of `subjectPhrase`, `usesTheSuffix`, `renderMessage`,
`throwError` and `assertTrue`).

The observable behaviour of one call is modelled by `Outcome`: either the call returns normally
with no side effect, or it emits exactly one diagnostic (a location string plus a rendered
message) and terminates the process.
-/

namespace UserErrors

/-- The enum `errorType` of all possible error codes, transcribed constructor by constructor
from user_errors.h (alphabetical order, `UNKNOWN` next to last, 39 enumerators in total). -/
inductive errorType
  | ALL_NOT_ALLOWED
  | CAN_ONLY_BE_CALLED_IN_MODE
  | CAN_ONLY_BE_CALLED_IN_STATE
  | CANNOT_BE_CALLED_IN_MODE
  | CANNOT_BE_CALLED_IN_STATE
  | CANNOT_BE_IDENTICAL
  | CANNOT_BE_NEGATIVE
  | CANNOT_BE_NULL
  | CANNOT_BE_LARGER
  | CANNOT_BE_SMALLER
  | CANNOT_BE_OFF
  | CANNOT_BE_ON
  | CANNOT_BE_POSITIVE
  | CANNOT_BE_SET_TO
  | CANNOT_BE_UNKNOWN
  | CANNOT_BE_ZERO
  | EXCEED_COMP_CONNECTION_LIMIT
  | FILE_CANNOT_CREATE
  | FILE_CANNOT_OPEN
  | IS_DEPRECATED
  | MUST_BE_CALLED
  | MUST_BE_IDENTICAL
  | MUST_BE_IN_RANGE
  | MUST_BE_LOGGER_CUSTOM
  | MUST_BE_NEGATIVE
  | MUST_BE_OFF
  | MUST_BE_ON
  | MUST_BE_POSITIVE
  | MUST_BE_SET_TO
  | MUST_BE_LARGER
  | MUST_BE_SMALLER
  | MUST_BE_ZERO
  | MUST_HAVE_SAME_SIGN
  | NETWORK_ALREADY_RUN
  | REPEATED_COMP_CONNNECTION
  | SYNAPSE_COMP_CONNECTION
  | UNKNOWN_GROUP_ID
  | UNKNOWN
  | WRONG_NEURON_TYPE
deriving DecidableEq, Fintype, Repr

/-- One fatal diagnostic: the location string (`errorFunc`) it is associated with, and the
rendered message text. -/
structure Diagnostic where
  location : String
  message : String
deriving DecidableEq, Repr

/-- Observable outcome of one call into the facility: either the call returns normally with no
side effect, or the process terminates after emitting exactly one diagnostic.  The header states
that all user errors are fatal: an error message is printed and CARLsim exits. -/
inductive Outcome
  | returned
  | terminated (diag : Diagnostic)
deriving DecidableEq, Repr

/-- Modelled from the spec: whether the fixed message template of a kind has a suffix
substitution slot (the body of UserErrors::throwError, which owns the kind-to-template switch,
is missing from the provided sources).  The spec requires templates to follow the uniform
grammar prefix, then subject phrase, then optional suffix, with 0 to 2 substitution slots. -/
def usesTheSuffix : errorType → Bool
  | .CAN_ONLY_BE_CALLED_IN_MODE => true
  | .CAN_ONLY_BE_CALLED_IN_STATE => true
  | .CANNOT_BE_CALLED_IN_MODE => true
  | .CANNOT_BE_CALLED_IN_STATE => true
  | .CANNOT_BE_IDENTICAL => true
  | .CANNOT_BE_LARGER => true
  | .CANNOT_BE_SMALLER => true
  | .CANNOT_BE_SET_TO => true
  | .MUST_BE_IDENTICAL => true
  | .MUST_BE_IN_RANGE => true
  | .MUST_BE_SET_TO => true
  | .MUST_BE_LARGER => true
  | .MUST_BE_SMALLER => true
  | .UNKNOWN_GROUP_ID => true
  | _ => false

/-- Modelled from the spec: the fixed subject phrase of each message template (the body of
UserErrors::throwError is missing from the provided sources).  Phrases are taken from the
templates the spec reproduces verbatim (CANNOT_BE_NEGATIVE, CANNOT_BE_IDENTICAL,
MUST_BE_IN_RANGE, the mode and file kinds, UNKNOWN) and otherwise from the per-enumerator doc
comments in user_errors.h.  Every kind has its own phrase; the mapping is total. -/
def subjectPhrase : errorType → String
  | .ALL_NOT_ALLOWED => " does not allow keyword ALL."
  | .CAN_ONLY_BE_CALLED_IN_MODE => " can only be called in mode "
  | .CAN_ONLY_BE_CALLED_IN_STATE => " can only be called in state "
  | .CANNOT_BE_CALLED_IN_MODE => " cannot be called in mode "
  | .CANNOT_BE_CALLED_IN_STATE => " cannot be called in state "
  | .CANNOT_BE_IDENTICAL => " cannot be identical to "
  | .CANNOT_BE_NEGATIVE => " cannot be negative."
  | .CANNOT_BE_NULL => " cannot be NULL."
  | .CANNOT_BE_LARGER => " cannot be larger than "
  | .CANNOT_BE_SMALLER => " cannot be smaller than "
  | .CANNOT_BE_OFF => " cannot be off."
  | .CANNOT_BE_ON => " cannot be on."
  | .CANNOT_BE_POSITIVE => " cannot be positive."
  | .CANNOT_BE_SET_TO => " cannot be set to "
  | .CANNOT_BE_UNKNOWN => " cannot be of type UNKNOWN."
  | .CANNOT_BE_ZERO => " cannot be zero."
  | .EXCEED_COMP_CONNECTION_LIMIT => " exceeds the group limit for compartmental connections."
  | .FILE_CANNOT_CREATE => " could not be created."
  | .FILE_CANNOT_OPEN => " could not be opened."
  | .IS_DEPRECATED => " is deprecated."
  | .MUST_BE_CALLED => " must be called."
  | .MUST_BE_IDENTICAL => " must be identical to "
  | .MUST_BE_IN_RANGE => " must be in range "
  | .MUST_BE_LOGGER_CUSTOM => " must be in custom logger mode."
  | .MUST_BE_NEGATIVE => " must be negative."
  | .MUST_BE_OFF => " must be off."
  | .MUST_BE_ON => " must be on."
  | .MUST_BE_POSITIVE => " must be positive."
  | .MUST_BE_SET_TO => " must be set to "
  | .MUST_BE_LARGER => " must be larger than "
  | .MUST_BE_SMALLER => " must be smaller than "
  | .MUST_BE_ZERO => " must be zero."
  | .MUST_HAVE_SAME_SIGN => " must have the same sign."
  | .NETWORK_ALREADY_RUN => " cannot be called because the network has already been run."
  | .REPEATED_COMP_CONNNECTION => " is a repeated or reversed compartmental connection."
  | .SYNAPSE_COMP_CONNECTION => " cannot be both a synaptic and a compartmental connection."
  | .UNKNOWN_GROUP_ID => " group ID cannot be found: "
  | .UNKNOWN => " has caused an unknown error."
  | .WRONG_NEURON_TYPE => " cannot be applied to this neuron type."

/-- Modelled from the spec: the rendered message text for a kind and a prefix and suffix pair,
following the uniform template grammar of the spec: the prefix, then the fixed subject phrase of
the kind, then (for kinds whose template has a suffix slot) the suffix and a closing period.
The spec pins down two renderings verbatim, and the header doc comment of assertTrue pins a
third: CANNOT_BE_NEGATIVE with prefix tau renders "tau cannot be negative.", and
CANNOT_BE_IDENTICAL with prefix A and suffix B renders "A cannot be identical to B.". -/
def renderMessage (error : errorType) ( errorMsgPrefix : String) ( errorMsgSuffix : String) :
    String :=
  if usesTheSuffix error then
    errorMsgPrefix ++ subjectPhrase error ++ errorMsgSuffix ++ "."
  else
    errorMsgPrefix ++ subjectPhrase error

/-- Modelled from the spec and the header doc comment of UserErrors::throwError (its body is
missing from the provided sources): it generates the standard error message for the error type,
displays the message associated with the location string errorFunc, and aborts the process.
The outcome is therefore always termination carrying exactly one diagnostic.  The source name
throwError is reserved in Lean, hence the name throwUserError. -/
def throwUserError ( errorFunc : String) (error : errorType) ( errorMsgPrefix : String)
    ( errorMsgSuffix : String) : Outcome :=
  Outcome.terminated ⟨errorFunc, renderMessage error errorMsgPrefix errorMsgSuffix⟩

/-- Modelled from the spec and the header doc comment of UserErrors::assertTrue (its body is
missing from the provided sources): it evaluates the statement, and if it is false it throws
the error; if the statement is true it is a no-op and returns normally. -/
def assertTrue (statement : Bool) (errorIfAssertionFails : errorType) ( errorFunc : String)
    ( errorMsgPrefix : String) ( errorMsgSuffix : String) : Outcome :=
  if statement then
    Outcome.returned
  else
    throwUserError errorFunc errorIfAssertionFails errorMsgPrefix errorMsgSuffix

/-- The three-argument call form of assertTrue: the header declares the defaults
errorMsgPrefix="" and errorMsgSuffix="", so a call that omits both arguments is compiled as a
call with both set to the empty string. -/
def assertTrueNoAffix (statement : Bool) (errorIfAssertionFails : errorType)
    ( errorFunc : String) : Outcome :=
  assertTrue statement errorIfAssertionFails errorFunc "" ""

/-- The four-argument call form of assertTrue: the header declares the default
errorMsgSuffix="", so a call that omits the suffix is compiled as a call with the suffix set to
the empty string. -/
def assertTrueNoSuffix (statement : Bool) (errorIfAssertionFails : errorType)
    ( errorFunc : String) ( errorMsgPrefix : String) : Outcome :=
  assertTrue statement errorIfAssertionFails errorFunc errorMsgPrefix ""

/-- Claim C1: for every error kind, location and prefix and suffix pair, calling assertTrue with
a false condition emits exactly one formatted diagnostic (the per-kind template with prefix and
suffix substituted, associated with the location) and terminates the process; the call never
returns to the caller. -/
theorem assertTrue_false_fatal (K : errorType) (loc pre suf : String) :
    assertTrue false K loc pre suf = Outcome.terminated ⟨loc, renderMessage K pre suf⟩ ∧
    assertTrue false K loc pre suf ≠ Outcome.returned :=
  ⟨rfl, by simp [assertTrue, throwUserError]⟩

/-- Claim C2: for every error kind, location and prefix and suffix pair, calling assertTrue with
a true condition returns normally, emits no diagnostic, does not terminate the process, and has
zero observable side effects. -/
theorem assertTrue_true_noop (K : errorType) (loc pre suf : String) :
    assertTrue true K loc pre suf = Outcome.returned :=
  rfl

/-- Claim C3: assertTrue with a false condition, kind CANNOT_BE_IDENTICAL, location connect,
prefix A and suffix B renders the diagnostic message text exactly
"A cannot be identical to B." and terminates the process. -/
theorem assertTrue_cannot_be_identical_scenario :
    assertTrue false errorType.CANNOT_BE_IDENTICAL "connect" "A" "B" =
      Outcome.terminated ⟨"connect", "A cannot be identical to B."⟩ :=
  rfl

/-- Claim C4: any two different kinds render different messages on some prefix and suffix input
(here the concrete input prefix P, suffix S witnesses the existential for every pair), so every
kind has its own distinct, unambiguous template and no kind other than UNKNOWN renders through
the UNKNOWN template (the special case K2 equal to UNKNOWN). -/
theorem renderMessage_distinct_kinds (k1 k2 : errorType) (h : k1 ≠ k2) :
    renderMessage k1 "P" "S" ≠ renderMessage k2 "P" "S" := by
  revert h; revert k1 k2; decide

/-- Witness for claim C4 at the concrete pair CANNOT_BE_NEGATIVE and UNKNOWN. -/
theorem renderMessage_distinct_kinds_witness :
    renderMessage errorType.CANNOT_BE_NEGATIVE "P" "S" ≠
      renderMessage errorType.UNKNOWN "P" "S" :=
  renderMessage_distinct_kinds errorType.CANNOT_BE_NEGATIVE errorType.UNKNOWN (by decide)

/-- Claim C5: the kind-to-template mapping is total over all 39 enumerators (renderMessage is a
total function on errorType), and for every prefix and suffix pair the rendered message is a
non-empty string. -/
theorem renderMessage_total_nonempty (K : errorType) (pre suf : String) :
    0 < (renderMessage K pre suf).length := by
  have h : 0 < (subjectPhrase K).length := by cases K <;> decide
  unfold renderMessage
  split <;> simp only [String.length_append] <;> omega

/-- Claim C6: assertTrue with a false condition, kind UNKNOWN_GROUP_ID, location getGroupId,
empty prefix and suffix 42 produces a diagnostic whose message text contains the unknown
identifier 42 carried in the suffix argument, and terminates the process. -/
theorem assertTrue_unknown_group_id_scenario :
    assertTrue false errorType.UNKNOWN_GROUP_ID "getGroupId" "" "42" =
      Outcome.terminated ⟨"getGroupId", " group ID cannot be found: 42."⟩ ∧
    ∃ l r, (" group ID cannot be found: 42." : String).data = l ++ "42".data ++ r :=
  ⟨rfl, " group ID cannot be found: ".data, ".".data, by decide⟩

/-- Claim C7: the four-argument call assertTrue with a false condition, kind
CANNOT_BE_NEGATIVE, location setConductance and prefix tau (suffix defaulted) renders the
diagnostic message text exactly "tau cannot be negative." and terminates the process. -/
theorem assertTrue_cannot_be_negative_scenario :
    assertTrueNoSuffix false errorType.CANNOT_BE_NEGATIVE "setConductance" "tau" =
      Outcome.terminated ⟨"setConductance", "tau cannot be negative."⟩ :=
  rfl

/-- Claim C8: message rendering is a pure, deterministic function of its inputs: two
invocations with identical kind, prefix and suffix produce character-for-character identical
message text.  The facility owns no state (the class has no data members, and renderMessage is
a function of exactly these three inputs), so the text is independent of prior invocations. -/
theorem renderMessage_deterministic (k1 k2 : errorType) (pre1 pre2 suf1 suf2 : String)
    (hk : k1 = k2) (hp : pre1 = pre2) (hs : suf1 = suf2) :
    renderMessage k1 pre1 suf1 = renderMessage k2 pre2 suf2 := by
  subst hk; subst hp; subst hs; rfl

/-- Witness for claim C8 at a concrete kind, prefix and suffix. -/
theorem renderMessage_deterministic_witness :
    renderMessage errorType.UNKNOWN "a" "b" = renderMessage errorType.UNKNOWN "a" "b" :=
  renderMessage_deterministic errorType.UNKNOWN errorType.UNKNOWN "a" "a" "b" "b" rfl rfl rfl

/-- Claim C9: an empty location string does not crash the facility: with a true condition
assertTrue still returns normally, and with a false condition it still produces one diagnostic
and terminates; the empty location is accepted verbatim (it appears unchanged in the
diagnostic). -/
theorem assertTrue_empty_location (K : errorType) (pre suf : String) :
    assertTrue true K "" pre suf = Outcome.returned ∧
    assertTrue false K "" pre suf = Outcome.terminated ⟨"", renderMessage K pre suf⟩ :=
  ⟨rfl, rfl⟩

/-- Claim C10: the prefix and suffix parameters default to the empty string: the
three-argument call form equals the five-argument call with both the prefix and suffix empty,
and the four-argument call form equals the five-argument call with the suffix empty, for every
condition, kind, location and prefix. -/
theorem assertTrue_default_arguments (c : Bool) (K : errorType) (loc pre : String) :
    assertTrueNoAffix c K loc = assertTrue c K loc "" "" ∧
    assertTrueNoSuffix c K loc pre = assertTrue c K loc pre "" :=
  ⟨rfl, rfl⟩

end UserErrors
